import Mathlib

/-!
Shallow embedding of the CRM automation workflow of `src/main.py`
(class `CRMAutomation`).  The browser/CRM world is abstracted by an
oracle `Env` giving, per service-order identifier and per attempt
number, the outcome of each external interaction.  The control flow of
the Python functions is translated statement by statement; every
`except Exception` handler of the source is reflected as an explicit
branch, and the only exception channels that can truly escape a
function in the source (a `page.screenshot` call raising inside an
`except` handler — in `open_service_order_details`, in
`find_and_save_invoice_image`, and in the per-order handler of the run
loop itself — the backoff `wait_for_timeout` raising, and the final
`page.goto` fallback of `return_to_search` raising) are modelled as
explicit boolean oracle fields.
-/

namespace CRMAutomation

/-- Outcome of one processing attempt body as seen by
`process_service_order`: the attempt succeeded, a step returned
failure (`False` in the source), or an exception escaped a step. -/
inductive StepRes
  | ok
  | failed
  | exnEsc
deriving DecidableEq, Repr

/-- Terminal outcome of a `process_service_order` call as seen by the
run loop: `True` returned, `False` returned, or an exception escaped
the call (possible only via the backoff wait raising inside the
`except` handler, main.py line 698). -/
inductive ProcOutcome
  | success
  | failed
  | escaped
deriving DecidableEq, Repr

/-- What `query_selector` on `'{invoice_image} img'` plus the `src`
attribute yields in strategy 2 of `find_and_save_invoice_image`
(main.py lines 576-589). -/
inductive Strat2Src
  | noElement
  | noSrc
  | dataUri (isJpeg : Bool) (decodeOk : Bool)
  | httpUrl (captureOk : Bool)
  | otherSrc
deriving DecidableEq, Repr

/-- Outcome of strategy 3, the region screenshot of the invoice
element (main.py lines 592-596): element found and captured, element
absent, or the capture raised. -/
inductive Strat3Res
  | okCapture
  | absent
  | exnCapture
deriving DecidableEq, Repr

/-- Outcome of the primary path of `return_to_search` (main.py lines
639-646): link click worked and the search input was found, click
worked but the input was absent, or the click raised. -/
inductive RetRes
  | okFound
  | okNotFound
  | exn
deriving DecidableEq, Repr

/-- Outcome of one login attempt of the `for attempt in range(3)`
loop of `login` (main.py lines 233-295): `is_logged_in` confirmed the
login, the attempt completed but `is_logged_in` was false
(`continue`), or the attempt raised (caught at line 288, retried). -/
inductive LoginAttemptRes
  | success
  | notLoggedIn
  | exn
deriving DecidableEq, Repr

/-- Observable pipeline events of one order, tagged with the attempt
number: the search step ran, the open-details step ran, the extract
step ran, the retry backoff wait ran. -/
inductive Ev
  | search (attempt : Nat)
  | details (attempt : Nat)
  | invoice (attempt : Nat)
  | backoff (attempt : Nat)
deriving DecidableEq, Repr

/-- Oracle for the browser/CRM environment.  Fields keyed by a
`String` and a `Nat` depend on the service-order identifier and on the
attempt number (`retry_count`) at which the interaction happens. -/
structure Env where
  /-- `load_service_orders` returns normally (else it raises). -/
  loadOk : Bool
  /-- `setup_browser` returns normally (else it raises). -/
  browserOk : Bool
  /-- the initial `page.goto`/wait of `login` raises (caught at
  main.py line 301, `login` returns `False`). -/
  loginGotoExn : Bool
  /-- outcome of login attempt `k` (k = 0, 1, 2). -/
  loginAttempt : Nat → LoginAttemptRes
  /-- the menu clicks of `navigate_to_job_search` raise (caught at
  line 382, returns `False`). -/
  navClickExn : Bool
  /-- the search input is found when verifying arrival (line 375);
  either way the function returns `True`. -/
  navSearchInputFound : Bool
  /-- an exception occurs inside `search_service_order` (fill, type,
  Enter, waits); caught at line 418, returns `False`. -/
  searchExn : String → Nat → Bool
  /-- the search box selector wait succeeds (line 394). -/
  searchBoxFound : String → Nat → Bool
  /-- the texts of the result-table rows shown after searching. -/
  rows : String → Nat → List (List Char)
  /-- an explicit no-results message is present (line 446). -/
  noResultsMsg : String → Nat → Bool
  /-- `find_eye_button_for_so` finds a view control (lines 458-480;
  its own exceptions are caught there and yield not-found). -/
  detailsFound : String → Nat → Bool
  /-- the scroll/click/wait of `open_service_order_details` raises
  (caught at line 515). -/
  detailsExn : String → Nat → Bool
  /-- the diagnostic screenshot in the `except` handler of
  `open_service_order_details` (line 517) itself raises, so the
  exception escapes the step. -/
  detailsHandlerExn : String → Nat → Bool
  /-- the pre-scroll block of `find_and_save_invoice_image`
  (lines 566-569) raises. -/
  preScrollExn : String → Nat → Bool
  /-- `save_invoice_image_new_tab` returns `True` (it catches its own
  exceptions and returns `False`, lines 558-560); on `True` it has
  written `{id}.png`. -/
  strat1Ok : String → Nat → Bool
  /-- what strategy 2 finds as the embedded image source. -/
  invoiceImg : String → Nat → Strat2Src
  /-- outcome of strategy 3, the region screenshot. -/
  strat3 : String → Nat → Strat3Res
  /-- the diagnostic screenshot in the `except` handler of
  `find_and_save_invoice_image` (line 603) itself raises, so the
  exception escapes the step. -/
  extractHandlerExn : String → Nat → Bool
  /-- the backoff `wait_for_timeout` inside the `except` handler of
  `process_service_order` (line 698) raises, so the exception escapes
  the whole call. -/
  backoffExn : String → Nat → Bool
  /-- the diagnostic screenshot in the per-order `except` handler of
  the run loop (main.py line 750) itself raises — reachable only after
  an order escaped with an exception; `failed` was already incremented
  at line 749, and the new exception leaves the `for` loop and reaches
  the handler at line 759, aborting the loop. -/
  criticalShotExn : String → Bool
  /-- primary path of `return_to_search` after order index `i`. -/
  retPrimary : Nat → RetRes
  /-- the `go_back` fallback of `return_to_search` succeeds. -/
  retBackOk : Nat → Bool
  /-- the direct-URL `goto` fallback of `return_to_search` succeeds
  (if not, the exception propagates out of `return_to_search`). -/
  retGotoOk : Nat → Bool

/-- Python substring containment `needle in hay` on row text,
modelled on character lists. -/
def containsSub (hay needle : List Char) : Bool :=
  hay.tails.any fun t => needle.isPrefixOf t

/-- Translation of `CRMAutomation.verify_search_results` (main.py
lines 422-456).  A failed wait for the row selector and an empty
`query_selector_all` result both yield an empty `rows` list and return
`False`; otherwise any row containing the identifier as a substring
returns `True`; the explicit no-results check and the fall-through
both return `False`. -/
def verify_search_results (rows : List (List Char)) (noResultsMsg : Bool)
    (so_number : List Char) : Bool :=
  if rows.isEmpty then false
  else if rows.any fun r => containsSub r so_number then true
  else if noResultsMsg then false
  else false

/-- Translation of `CRMAutomation.search_service_order` (main.py
lines 387-420).  Any exception in the body is caught and yields
`False`; a missing search box yields `False`; otherwise the result is
that of `verify_search_results`. -/
def search_service_order (env : Env) (so_number : String) (rc : Nat) : Bool :=
  if env.searchExn so_number rc then false
  else if env.searchBoxFound so_number rc = false then false
  else verify_search_results (env.rows so_number rc)
    (env.noResultsMsg so_number rc) so_number.data

/-- Translation of `CRMAutomation.open_service_order_details` (main.py
lines 482-518), returning (result, exception-escaped).  Missing view
button returns `False` without raising; an exception in the
scroll/click body is caught, and escapes the step only if the
diagnostic screenshot in the handler itself raises; otherwise the
step returns `True` (the arrival check is non-fatal either way). -/
def open_service_order_details (env : Env) (so_number : String) (rc : Nat) :
    Bool × Bool :=
  if env.detailsFound so_number rc = false then (false, false)
  else if env.detailsExn so_number rc then (false, env.detailsHandlerExn so_number rc)
  else (true, false)

/-- Result of `find_and_save_invoice_image`: returned boolean, artifact
files written under the download directory, whether strategies 2 and 3
were consulted, and whether an exception escaped the call. -/
structure ExtractResult where
  ok : Bool
  files : List String
  strat2Tried : Bool
  strat3Tried : Bool
  escaped : Bool
deriving DecidableEq, Repr

/-- Translation of `CRMAutomation.find_and_save_invoice_image` (main.py
lines 562-604) together with `save_invoice_image_new_tab` (strategy 1,
lines 520-560) and `save_base64_image` (lines 606-633).  Strategy 1 is
tried first; only if it returns `False` is the embedded-image source
inspected (strategy 2); only if that gives neither a data URI nor an
http URL is the region screenshot tried (strategy 3).  A failing
base64 decode or a failing http capture raises into the function's
`except` handler (returning `False` without reaching strategy 3), and
escapes the call only if the handler's diagnostic screenshot raises. -/
def find_and_save_invoice_image (env : Env) (so_number : String) (rc : Nat) :
    ExtractResult :=
  if env.preScrollExn so_number rc then
    { ok := false, files := [], strat2Tried := false, strat3Tried := false,
      escaped := env.extractHandlerExn so_number rc }
  else if env.strat1Ok so_number rc then
    { ok := true, files := [so_number ++ ".png"], strat2Tried := false,
      strat3Tried := false, escaped := false }
  else
    match env.invoiceImg so_number rc with
    | .dataUri isJpeg decodeOk =>
      if decodeOk then
        { ok := true,
          files := [so_number ++ "." ++ (if isJpeg then "jpg" else "png")],
          strat2Tried := true, strat3Tried := false, escaped := false }
      else
        { ok := false, files := [], strat2Tried := true, strat3Tried := false,
          escaped := env.extractHandlerExn so_number rc }
    | .httpUrl captureOk =>
      if captureOk then
        { ok := true, files := [so_number ++ ".png"], strat2Tried := true,
          strat3Tried := false, escaped := false }
      else
        { ok := false, files := [], strat2Tried := true, strat3Tried := false,
          escaped := env.extractHandlerExn so_number rc }
    | _ =>
      match env.strat3 so_number rc with
      | .okCapture =>
        { ok := true, files := [so_number ++ ".png"], strat2Tried := true,
          strat3Tried := true, escaped := false }
      | .absent =>
        { ok := false, files := [], strat2Tried := true, strat3Tried := true,
          escaped := false }
      | .exnCapture =>
        { ok := false, files := [], strat2Tried := true, strat3Tried := true,
          escaped := env.extractHandlerExn so_number rc }

/-- The `try` body of one attempt of `process_service_order` (main.py
lines 669-691): search, open details, save invoice, each aborting the
attempt on failure, with the recorded event trace. -/
def attemptBody (env : Env) (so_number : String) (rc : Nat) :
    StepRes × List Ev :=
  if search_service_order env so_number rc = false then
    (.failed, [.search rc])
  else
    match open_service_order_details env so_number rc with
    | (false, esc) =>
      (if esc then .exnEsc else .failed, [.search rc, .details rc])
    | (true, _) =>
      let r := find_and_save_invoice_image env so_number rc
      if r.escaped then (.exnEsc, [.search rc, .details rc, .invoice rc])
      else if r.ok then (.ok, [.search rc, .details rc, .invoice rc])
      else (.failed, [.search rc, .details rc, .invoice rc])

/-- Fuel-indexed translation of `CRMAutomation.process_service_order`
(main.py lines 661-701).  The Python function recurses with
`retry_count + 1` only while `retry_count < max_retries - 1`, so the
recursion depth from `retry_count = rc` is at most `mr - rc`; the fuel
`mr - rc + 1` therefore never runs out and only makes the recursion
structural.  A step returning `False` returns `False` immediately (no
retry); only an exception reaches the `except` handler, which backs
off and re-invokes from the search step, or returns `False` when the
attempt bound is reached; a raising backoff wait escapes the call. -/
def processFuel (env : Env) (cancelled : Bool) (so_number : String)
    (mr : Nat) : Nat → Nat → ProcOutcome × List Ev
  | _, 0 => (.failed, [])
  | rc, fuel + 1 =>
    if cancelled then (.failed, [])
    else
      match attemptBody env so_number rc with
      | (.ok, evs) => (.success, evs)
      | (.failed, evs) => (.failed, evs)
      | (.exnEsc, evs) =>
        if rc < mr - 1 then
          if env.backoffExn so_number rc then (.escaped, evs ++ [.backoff rc])
          else
            let r := processFuel env cancelled so_number mr (rc + 1) fuel
            (r.1, evs ++ .backoff rc :: r.2)
        else (.failed, evs)

/-- `CRMAutomation.process_service_order` at retry count `rc`, with
adequate fuel. -/
def process_service_order (env : Env) (cancelled : Bool) (so_number : String)
    (mr rc : Nat) : ProcOutcome × List Ev :=
  processFuel env cancelled so_number mr rc (mr - rc + 1)

/-- Translation of `CRMAutomation.return_to_search` (main.py lines
635-659): primary link click with search-input check, then `go_back`
fallback, then direct-URL fallback whose failure propagates out of the
function (`Except.error`). -/
def return_to_search (env : Env) (i : Nat) : Except Unit Bool :=
  match env.retPrimary i with
  | .okFound => .ok true
  | .okNotFound => .ok false
  | .exn =>
    if env.retBackOk i then .ok true
    else if env.retGotoOk i then .ok true
    else .error ()

/-- Translation of `CRMAutomation.login` (main.py lines 213-304): the
initial navigation raising is caught and yields `False`; otherwise the
three attempts of the `for attempt in range(max_attempts)` loop run in
order, the first confirmed attempt returning `True`, both an
unconfirmed attempt and a raising attempt moving on to the next, and
exhaustion yielding `False`. -/
def login (env : Env) : Bool :=
  if env.loginGotoExn then false
  else
    match env.loginAttempt 0 with
    | .success => true
    | _ =>
      match env.loginAttempt 1 with
      | .success => true
      | _ =>
        match env.loginAttempt 2 with
        | .success => true
        | _ => false

/-- Translation of `CRMAutomation.navigate_to_job_search` (main.py
lines 357-385): a raising click sequence is caught and yields `False`;
otherwise the function returns `True` whether or not the search input
is found (the check is explicitly non-fatal). -/
def navigate_to_job_search (env : Env) : Bool :=
  if env.navClickExn then false
  else if env.navSearchInputFound then true
  else true

/-- The statistics dictionary of `CRMAutomation.__init__` (main.py
lines 52-59), counts only. -/
structure Stats where
  total : Nat
  success : Nat
  failed : Nat
  skipped : Nat
deriving DecidableEq, Repr

/-- Initial statistics: all counters zero. -/
def initStats : Stats :=
  { total := 0, success := 0, failed := 0, skipped := 0 }

/-- State threaded through the per-order loop of `run_automation`:
statistics, the `failed_orders.txt` append log, the recorded pipeline
events `(identifier, event)`, and whether an exception aborted the
loop. -/
structure LoopSt where
  stats : Stats
  failedLog : List String
  trace : List (String × Ev)
  aborted : Bool
deriving DecidableEq, Repr

/-- The state updates of one iteration of the per-order loop of
`run_automation` (main.py lines 734-750): the order's outcome is
classified into the success or failed counter; a `False` return also
appends the identifier to `failed_orders.txt` (line 744); an escaping
exception is caught at line 747 and only counted as failed (no log
append — the `failed += 1` at line 749 precedes the diagnostic
screenshot at line 750, so it happens even when that screenshot
raises); the pipeline events are recorded either way.  Whether the
line-750 screenshot itself raises — aborting the loop — is decided by
`orderAborts` inside `runLoop`. -/
def orderStep (env : Env) (cancelled : Bool) (mr : Nat) (so_number : String)
    (st : LoopSt) : LoopSt :=
  match (process_service_order env cancelled so_number mr 0).1 with
  | .success =>
    { st with
      stats := { st.stats with success := st.stats.success + 1 },
      trace := st.trace ++
        (process_service_order env cancelled so_number mr 0).2.map
          fun e => (so_number, e) }
  | .failed =>
    { st with
      stats := { st.stats with failed := st.stats.failed + 1 },
      failedLog := st.failedLog ++ [so_number],
      trace := st.trace ++
        (process_service_order env cancelled so_number mr 0).2.map
          fun e => (so_number, e) }
  | .escaped =>
    { st with
      stats := { st.stats with failed := st.stats.failed + 1 },
      trace := st.trace ++
        (process_service_order env cancelled so_number mr 0).2.map
          fun e => (so_number, e) }

/-- The order's processing escaped with an exception and the
diagnostic screenshot in the per-order `except` handler (main.py line
750) itself raises: the only way an iteration of the run loop can end
in an exception of its own. -/
def orderAborts (env : Env) (cancelled : Bool) (mr : Nat)
    (so_number : String) : Bool :=
  match (process_service_order env cancelled so_number mr 0).1 with
  | .escaped => env.criticalShotExn so_number
  | _ => false

/-- The `for i, so_number in enumerate(so_numbers, 1)` loop of
`run_automation` (main.py lines 729-754).  When the per-order handler's
diagnostic screenshot raises (`orderAborts`), the exception leaves the
`for` loop — `failed` already incremented — and the remaining
identifiers are never processed.  Otherwise, after each order except
the last (`if i < len(so_numbers)`) `return_to_search` runs, and an
exception propagating out of it aborts the loop the same way (both are
outside the per-order `try`, reaching the handler at line 759). -/
def runLoop (env : Env) (cancelled : Bool) (mr : Nat) :
    List String → Nat → LoopSt → LoopSt
  | [], _, st => st
  | so_number :: rest, i, st =>
    if orderAborts env cancelled mr so_number then
      { orderStep env cancelled mr so_number st with aborted := true }
    else
      let st1 := orderStep env cancelled mr so_number st
      if rest.isEmpty then st1
      else
        match return_to_search env i with
        | .ok _ => runLoop env cancelled mr rest (i + 1) st1
        | .error _ => { st1 with aborted := true }

/-- Result of a `run_automation` call: final statistics, whether the
start and end times were set, how many summaries were emitted, the
failure log, the event trace, whether the loop was aborted, and the
exception surfaced to the caller, if any. -/
structure RunResult where
  stats : Stats
  startTimeSet : Bool
  endTimeSet : Bool
  summaryCount : Nat
  failedLog : List String
  trace : List (String × Ev)
  loopAborted : Bool
  escaped : Option String
deriving DecidableEq, Repr

/-- The outer `finally` of `run_automation` (main.py lines 778-781):
the end time is set and `print_summary` emits one summary.  (The
earlier `print_summary()` call at line 757 runs before `end_time` is
set, so its very first line `end_time - start_time` raises a
`TypeError` that the handler at line 759 catches; only the `finally`
emission completes.)  Nothing escapes to the caller. -/
def finalize (stats : Stats) (log : List String) (tr : List (String × Ev))
    (ab : Bool) : RunResult :=
  { stats := stats, startTimeSet := true, endTimeSet := true,
    summaryCount := 1, failedLog := log, trace := tr, loopAborted := ab,
    escaped := none }

/-- Translation of `CRMAutomation.run_automation` (main.py lines
703-781).  The start time is set first; a raising
`load_service_orders` reaches the outer handler with `total` still 0;
then `total` is set to the list length; a raising `setup_browser`, a
failing `login` and a failing `navigate_to_job_search` all leave the
loop unentered with zero processed; otherwise the per-order loop runs.
Every path ends in the unconditional `finally`. -/
def run_automation (env : Env) (ids : List String) (cancelled : Bool)
    (mr : Nat) : RunResult :=
  if env.loadOk = false then finalize initStats [] [] false
  else if env.browserOk = false then
    finalize { initStats with total := ids.length } [] [] false
  else if login env = false then
    finalize { initStats with total := ids.length } [] [] false
  else if navigate_to_job_search env = false then
    finalize { initStats with total := ids.length } [] [] false
  else
    let st := runLoop env cancelled mr ids 0
      { stats := { initStats with total := ids.length },
        failedLog := [], trace := [], aborted := false }
    finalize st.stats st.failedLog st.trace st.aborted

/-- `process_service_order` returned `True`. -/
def isSuccessB (o : ProcOutcome) : Bool :=
  match o with
  | .success => true
  | _ => false

/-- `process_service_order` returned `False` (as opposed to raising). -/
def isFailedB (o : ProcOutcome) : Bool :=
  match o with
  | .failed => true
  | _ => false

/-- The terminal outcome of one identifier under a given environment,
cancellation flag and retry bound. -/
def outcomeOf (env : Env) (cancelled : Bool) (mr : Nat) (so_number : String) :
    ProcOutcome :=
  (process_service_order env cancelled so_number mr 0).1

/-- The event trace accumulated by the run loop over a list of
identifiers. -/
def loopTrace (env : Env) (cancelled : Bool) (mr : Nat) :
    List String → List (String × Ev)
  | [] => []
  | so_number :: rest =>
    ((process_service_order env cancelled so_number mr 0).2.map
      fun e => (so_number, e)) ++ loopTrace env cancelled mr rest

/-- An environment in which every interaction behaves: login confirms
on the first attempt, the searched identifier appears in a result row,
the view button is found, strategy 1 captures the artifact, and
`return_to_search` always takes its primary path. -/
def envOkBase : Env where
  loadOk := true
  browserOk := true
  loginGotoExn := false
  loginAttempt := fun _ => .success
  navClickExn := false
  navSearchInputFound := true
  searchExn := fun _ _ => false
  searchBoxFound := fun _ _ => true
  rows := fun so_number _ => [so_number.data]
  noResultsMsg := fun _ _ => false
  detailsFound := fun _ _ => true
  detailsExn := fun _ _ => false
  detailsHandlerExn := fun _ _ => false
  preScrollExn := fun _ _ => false
  strat1Ok := fun _ _ => true
  invoiceImg := fun _ _ => .noElement
  strat3 := fun _ _ => .absent
  extractHandlerExn := fun _ _ => false
  backoffExn := fun _ _ => false
  criticalShotExn := fun _ => false
  retPrimary := fun _ => .okFound
  retBackOk := fun _ => true
  retGotoOk := fun _ => true

/-- As `envOkBase`, but no login attempt is ever confirmed. -/
def envLoginFail : Env :=
  { envOkBase with loginAttempt := fun _ => .notLoggedIn }

/-- As `envOkBase`, but the search box is never found, so the search
step returns failure (without raising). -/
def envStepFail : Env :=
  { envOkBase with searchBoxFound := fun _ _ => false }

/-- As `envOkBase`, but the open-details step raises and its handler's
diagnostic screenshot raises too, so every attempt body ends in an
escaped exception. -/
def envStepExn : Env :=
  { envOkBase with
    detailsExn := fun _ _ => true
    detailsHandlerExn := fun _ _ => true }

/-- As `envOkBase`, but strategy 1 fails and the invoice renders as an
absolute image URL whose capture succeeds (strategy 2). -/
def envStrat2 : Env :=
  { envOkBase with
    strat1Ok := fun _ _ => false
    invoiceImg := fun _ _ => .httpUrl true }

/-- As `envStepFail`, but every `return_to_search` fallback raises, so
the exception propagates out of `return_to_search`. -/
def envRetAbort : Env :=
  { envStepFail with
    retPrimary := fun _ => .exn
    retBackOk := fun _ => false
    retGotoOk := fun _ => false }

/-- As `envStepExn`, but the backoff wait raises too (so the order's
processing escapes with an exception), and so does the diagnostic
screenshot in the per-order handler of the run loop (main.py line
750). -/
def envCriticalShot : Env :=
  { envStepExn with
    backoffExn := fun _ _ => true
    criticalShotExn := fun _ => true }

theorem containsSub_iff (hay needle : List Char) :
    containsSub hay needle = true ↔ ∃ pre post, hay = pre ++ needle ++ post := by
  unfold containsSub
  rw [List.any_eq_true]
  constructor
  · rintro ⟨t, ht, hp⟩
    rw [List.mem_tails] at ht
    rw [List.isPrefixOf_iff_prefix] at hp
    obtain ⟨pre, hpre⟩ := ht
    obtain ⟨post, hpost⟩ := hp
    refine ⟨pre, post, ?_⟩
    rw [← hpre, ← hpost, List.append_assoc]
  · rintro ⟨pre, post, rfl⟩
    refine ⟨needle ++ post, ?_, ?_⟩
    · rw [List.mem_tails]
      exact ⟨pre, by rw [List.append_assoc]⟩
    · rw [List.isPrefixOf_iff_prefix]
      exact ⟨post, rfl⟩

theorem verify_eq_any (rows : List (List Char)) (noResultsMsg : Bool)
    (so_number : List Char) :
    verify_search_results rows noResultsMsg so_number
      = rows.any fun r => containsSub r so_number := by
  unfold verify_search_results
  cases rows with
  | nil => cases noResultsMsg <;> rfl
  | cons r t =>
    simp only [List.isEmpty_cons, Bool.false_eq_true, if_false]
    cases h : (r :: t).any fun x => containsSub x so_number
    · cases noResultsMsg <;> simp [h]
    · simp [h]

theorem length_filter_partition {α : Type} (p : α → Bool) (l : List α) :
    (l.filter p).length + (l.filter fun a => ! p a).length = l.length := by
  induction l with
  | nil => rfl
  | cons a t ih =>
    cases hp : p a <;> simp [List.filter_cons, hp] <;> omega

theorem count_filter_pos {α : Type} [BEq α] [LawfulBEq α] (p : α → Bool)
    (l : List α) (a : α) (h : p a = true) :
    (l.filter p).count a = l.count a := by
  induction l with
  | nil => rfl
  | cons b t ih =>
    by_cases hb : b = a
    · subst hb
      simp [List.filter_cons, h, List.count_cons, ih]
    · cases hp : p b <;>
        simp [List.filter_cons, hp, List.count_cons, ih, hb]

theorem process_cancelled (env : Env) (so_number : String) (mr rc : Nat) :
    process_service_order env true so_number mr rc = (.failed, []) := by
  simp [process_service_order, processFuel]

theorem attemptBody_trace (env : Env) (so_number : String) (rc : Nat) :
    ∃ t, (attemptBody env so_number rc).2 = Ev.search rc :: t := by
  unfold attemptBody
  split
  · exact ⟨[], rfl⟩
  · split
    · exact ⟨[Ev.details rc], rfl⟩
    · refine ⟨[Ev.details rc, Ev.invoice rc], ?_⟩
      dsimp only
      split
      · rfl
      · split <;> rfl

theorem processFuel_adequate (env : Env) (c : Bool) (so_number : String)
    (mr rc : Nat) (h : rc < mr - 1) :
    processFuel env c so_number mr (rc + 1) (mr - rc) =
      process_service_order env c so_number mr (rc + 1) := by
  unfold process_service_order
  congr 1
  omega

theorem process_trace_cons (env : Env) (so_number : String) (mr rc : Nat) :
    ∃ t, (process_service_order env false so_number mr rc).2
      = Ev.search rc :: t := by
  obtain ⟨t0, ht0⟩ := attemptBody_trace env so_number rc
  unfold process_service_order
  simp only [processFuel, Bool.false_eq_true, if_false]
  rcases hab : attemptBody env so_number rc with ⟨s, evs⟩
  rw [hab] at ht0
  simp only at ht0
  cases s
  · exact ⟨t0, by simp [ht0]⟩
  · exact ⟨t0, by simp [ht0]⟩
  · by_cases hlt : rc < mr - 1
    · cases hbo : env.backoffExn so_number rc
      · refine ⟨t0 ++ Ev.backoff rc ::
          (processFuel env false so_number mr (rc + 1) (mr - rc)).2, ?_⟩
        simp [hlt, hbo, ht0]
      · exact ⟨t0 ++ [Ev.backoff rc], by simp [hlt, hbo, ht0]⟩
    · exact ⟨t0, by simp [hlt, ht0]⟩

theorem orderStep_success (env : Env) (c : Bool) (mr : Nat)
    (so_number : String) (st : LoopSt) :
    (orderStep env c mr so_number st).stats.success
      = st.stats.success
        + (if isSuccessB (outcomeOf env c mr so_number) then 1 else 0) := by
  unfold orderStep outcomeOf
  cases hp : (process_service_order env c so_number mr 0).1 <;>
    simp [hp, isSuccessB]

theorem orderStep_failed (env : Env) (c : Bool) (mr : Nat)
    (so_number : String) (st : LoopSt) :
    (orderStep env c mr so_number st).stats.failed
      = st.stats.failed
        + (if isSuccessB (outcomeOf env c mr so_number) then 0 else 1) := by
  unfold orderStep outcomeOf
  cases hp : (process_service_order env c so_number mr 0).1 <;>
    simp [hp, isSuccessB]

theorem orderStep_log (env : Env) (c : Bool) (mr : Nat)
    (so_number : String) (st : LoopSt) :
    (orderStep env c mr so_number st).failedLog
      = st.failedLog
        ++ (if isFailedB (outcomeOf env c mr so_number) then [so_number] else []) := by
  unfold orderStep outcomeOf
  cases hp : (process_service_order env c so_number mr 0).1 <;>
    simp [hp, isFailedB]

theorem orderStep_trace (env : Env) (c : Bool) (mr : Nat)
    (so_number : String) (st : LoopSt) :
    (orderStep env c mr so_number st).trace
      = st.trace
        ++ (process_service_order env c so_number mr 0).2.map
          fun e => (so_number, e) := by
  unfold orderStep
  cases hp : (process_service_order env c so_number mr 0).1 <;> simp [hp]

theorem orderStep_total (env : Env) (c : Bool) (mr : Nat)
    (so_number : String) (st : LoopSt) :
    (orderStep env c mr so_number st).stats.total = st.stats.total := by
  unfold orderStep
  cases hp : (process_service_order env c so_number mr 0).1 <;> simp [hp]

theorem orderStep_skipped (env : Env) (c : Bool) (mr : Nat)
    (so_number : String) (st : LoopSt) :
    (orderStep env c mr so_number st).stats.skipped = st.stats.skipped := by
  unfold orderStep
  cases hp : (process_service_order env c so_number mr 0).1 <;> simp [hp]

theorem orderStep_aborted (env : Env) (c : Bool) (mr : Nat)
    (so_number : String) (st : LoopSt) :
    (orderStep env c mr so_number st).aborted = st.aborted := by
  unfold orderStep
  cases hp : (process_service_order env c so_number mr 0).1 <;> simp [hp]

/-- The line-750 screenshot channel is live in the model: when order
SO001 escapes with an exception and the handler's diagnostic
screenshot raises, `failed` is still incremented (it precedes the
screenshot), no identifier is appended to the failure log, the loop is
aborted, and SO002 is never processed. -/
theorem criticalShot_aborts_loop :
    (run_automation envCriticalShot ["SO001", "SO002"] false 3).loopAborted
        = true ∧
    (run_automation envCriticalShot ["SO001", "SO002"] false 3).stats.total
        = 2 ∧
    (run_automation envCriticalShot ["SO001", "SO002"] false 3).stats.success
        = 0 ∧
    (run_automation envCriticalShot ["SO001", "SO002"] false 3).stats.failed
        = 1 ∧
    (run_automation envCriticalShot ["SO001", "SO002"] false 3).failedLog
        = [] := by
  decide

theorem orderAborts_of_noShot (env : Env) (c : Bool) (mr : Nat)
    (so_number : String) (h : env.criticalShotExn so_number = false) :
    orderAborts env c mr so_number = false := by
  unfold orderAborts
  cases (process_service_order env c so_number mr 0).1 <;> simp [h]

theorem orderAborts_cancelled (env : Env) (mr : Nat) (so_number : String) :
    orderAborts env true mr so_number = false := by
  simp [orderAborts, process_cancelled]

theorem runLoop_cons (env : Env) (c : Bool) (mr : Nat) (so_number : String)
    (rest : List String) (i : Nat) (st : LoopSt)
    (hret : return_to_search env i ≠ Except.error ())
    (hcrit : orderAborts env c mr so_number = false) :
    runLoop env c mr (so_number :: rest) i st
      = runLoop env c mr rest (i + 1) (orderStep env c mr so_number st) := by
  simp only [runLoop, hcrit, Bool.false_eq_true, if_false]
  cases hrest : rest.isEmpty
  · simp only [Bool.false_eq_true, if_false]
    cases hr : return_to_search env i with
    | ok b => rfl
    | error e => cases e; exact absurd hr hret
  · have hnil : rest = [] := by
      cases rest
      · rfl
      · simp [List.isEmpty_cons] at hrest
    subst hnil
    simp [runLoop]

theorem runLoop_preserve (env : Env) (c : Bool) (mr : Nat) (l : List String) :
    ∀ (i : Nat) (st : LoopSt),
      (runLoop env c mr l i st).stats.total = st.stats.total ∧
      (runLoop env c mr l i st).stats.skipped = st.stats.skipped := by
  induction l with
  | nil => intro i st; exact ⟨rfl, rfl⟩
  | cons so_number rest ih =>
    intro i st
    simp only [runLoop]
    cases hcrit : orderAborts env c mr so_number
    · simp only [Bool.false_eq_true, if_false]
      cases hrest : rest.isEmpty
      · simp only [Bool.false_eq_true, if_false]
        cases hr : return_to_search env i with
        | ok b =>
          refine ⟨(ih _ _).1.trans ?_, (ih _ _).2.trans ?_⟩
          · exact orderStep_total env c mr so_number st
          · exact orderStep_skipped env c mr so_number st
        | error e =>
          exact ⟨orderStep_total env c mr so_number st,
            orderStep_skipped env c mr so_number st⟩
      · exact ⟨orderStep_total env c mr so_number st,
          orderStep_skipped env c mr so_number st⟩
    · rw [if_pos rfl]
      exact ⟨orderStep_total env c mr so_number st,
        orderStep_skipped env c mr so_number st⟩

theorem runLoop_success (env : Env) (c : Bool) (mr : Nat)
    (hret : ∀ i, return_to_search env i ≠ Except.error ())
    (hab : ∀ so_number, orderAborts env c mr so_number = false)
    (l : List String) :
    ∀ (i : Nat) (st : LoopSt),
      (runLoop env c mr l i st).stats.success
        = st.stats.success
          + (l.filter fun so_number =>
              isSuccessB (outcomeOf env c mr so_number)).length := by
  induction l with
  | nil => intro i st; simp [runLoop]
  | cons so_number rest ih =>
    intro i st
    rw [runLoop_cons env c mr so_number rest i st (hret i) (hab so_number),
      ih,
      orderStep_success]
    cases hso : isSuccessB (outcomeOf env c mr so_number) <;>
      simp [List.filter_cons, hso] <;> omega

theorem runLoop_failed (env : Env) (c : Bool) (mr : Nat)
    (hret : ∀ i, return_to_search env i ≠ Except.error ())
    (hab : ∀ so_number, orderAborts env c mr so_number = false)
    (l : List String) :
    ∀ (i : Nat) (st : LoopSt),
      (runLoop env c mr l i st).stats.failed
        = st.stats.failed
          + (l.filter fun so_number =>
              ! isSuccessB (outcomeOf env c mr so_number)).length := by
  induction l with
  | nil => intro i st; simp [runLoop]
  | cons so_number rest ih =>
    intro i st
    rw [runLoop_cons env c mr so_number rest i st (hret i) (hab so_number),
      ih,
      orderStep_failed]
    cases hso : isSuccessB (outcomeOf env c mr so_number) <;>
      simp [List.filter_cons, hso] <;> omega

theorem runLoop_log (env : Env) (c : Bool) (mr : Nat)
    (hret : ∀ i, return_to_search env i ≠ Except.error ())
    (hab : ∀ so_number, orderAborts env c mr so_number = false)
    (l : List String) :
    ∀ (i : Nat) (st : LoopSt),
      (runLoop env c mr l i st).failedLog
        = st.failedLog
          ++ l.filter fun so_number =>
              isFailedB (outcomeOf env c mr so_number) := by
  induction l with
  | nil => intro i st; simp [runLoop]
  | cons so_number rest ih =>
    intro i st
    rw [runLoop_cons env c mr so_number rest i st (hret i) (hab so_number),
      ih, orderStep_log]
    cases hso : isFailedB (outcomeOf env c mr so_number) <;>
      simp [List.filter_cons, hso]

theorem runLoop_trace (env : Env) (c : Bool) (mr : Nat)
    (hret : ∀ i, return_to_search env i ≠ Except.error ())
    (hab : ∀ so_number, orderAborts env c mr so_number = false)
    (l : List String) :
    ∀ (i : Nat) (st : LoopSt),
      (runLoop env c mr l i st).trace
        = st.trace ++ loopTrace env c mr l := by
  induction l with
  | nil => intro i st; simp [runLoop, loopTrace]
  | cons so_number rest ih =>
    intro i st
    rw [runLoop_cons env c mr so_number rest i st (hret i) (hab so_number),
      ih,
      orderStep_trace]
    simp [loopTrace]

theorem runLoop_aborted (env : Env) (c : Bool) (mr : Nat)
    (hret : ∀ i, return_to_search env i ≠ Except.error ())
    (hab : ∀ so_number, orderAborts env c mr so_number = false)
    (l : List String) :
    ∀ (i : Nat) (st : LoopSt),
      (runLoop env c mr l i st).aborted = st.aborted := by
  induction l with
  | nil => intro i st; rfl
  | cons so_number rest ih =>
    intro i st
    rw [runLoop_cons env c mr so_number rest i st (hret i) (hab so_number),
      ih,
      orderStep_aborted]

/-- The loop state at loop entry: `total` set to the list length, every
other statistic zero, empty log and trace. -/
def initLoopSt (n : Nat) : LoopSt :=
  { stats := { initStats with total := n },
    failedLog := [], trace := [], aborted := false }

theorem run_automation_of_ok (env : Env) (ids : List String) (c : Bool)
    (mr : Nat) (hload : env.loadOk = true) (hbr : env.browserOk = true)
    (hlog : login env = true) (hnav : navigate_to_job_search env = true) :
    run_automation env ids c mr
      = finalize (runLoop env c mr ids 0 (initLoopSt ids.length)).stats
          (runLoop env c mr ids 0 (initLoopSt ids.length)).failedLog
          (runLoop env c mr ids 0 (initLoopSt ids.length)).trace
          (runLoop env c mr ids 0 (initLoopSt ids.length)).aborted := by
  unfold run_automation initLoopSt
  simp [hload, hbr, hlog, hnav]

theorem run_automation_no_login (env : Env) (ids : List String) (c : Bool)
    (mr : Nat) (hload : env.loadOk = true) (hbr : env.browserOk = true)
    (hlog : login env = false) :
    run_automation env ids c mr
      = finalize { initStats with total := ids.length } [] [] false := by
  unfold run_automation
  simp [hload, hbr, hlog]

theorem loopTrace_cancelled (env : Env) (mr : Nat) (l : List String) :
    loopTrace env true mr l = [] := by
  induction l with
  | nil => rfl
  | cons so_number rest ih => simp [loopTrace, process_cancelled, ih]

/-- Claim C1, amended.  The original claim asserts
`success + failed + skipped == total` after every termination mode,
including login/navigation failure and a propagated exception; but on
those paths `total` is already `len(ids)` while no order was counted,
so the sum is 0 (see `c1_counterexample`).  Amended: for every
non-empty identifier list, when the run reaches the processing loop
(loading, browser setup, login and navigation succeed) and the loop is
not aborted — neither by a `return_to_search` fault nor by the
diagnostic screenshot in the per-order `except` handler (main.py line
750) raising after an escaped order — the final statistics satisfy
`success + failed + skipped = total`. -/
theorem c1_stats_sum (env : Env) (ids : List String) (c : Bool) (mr : Nat)
    (hload : env.loadOk = true) (hbr : env.browserOk = true)
    (hlog : login env = true) (hnav : navigate_to_job_search env = true)
    (hret : ∀ i, return_to_search env i ≠ Except.error ())
    (hab : ∀ so_number, orderAborts env c mr so_number = false)
    (hne : ids ≠ []) :
    (run_automation env ids c mr).stats.success
      + (run_automation env ids c mr).stats.failed
      + (run_automation env ids c mr).stats.skipped
      = (run_automation env ids c mr).stats.total := by
  rw [run_automation_of_ok env ids c mr hload hbr hlog hnav]
  simp only [finalize]
  rw [runLoop_success env c mr hret hab ids,
    runLoop_failed env c mr hret hab ids,
    (runLoop_preserve env c mr ids 0 (initLoopSt ids.length)).1,
    (runLoop_preserve env c mr ids 0 (initLoopSt ids.length)).2]
  have hpart := length_filter_partition
    (fun so_number => isSuccessB (outcomeOf env c mr so_number)) ids
  simp only [initLoopSt, initStats]
  omega

/-- Claim C1, counterexample to the original statement: with a
non-empty list (one identifier) and an environment whose login
attempts all fail, the run terminates with `total = 1` but
`success + failed + skipped = 0`. -/
theorem c1_counterexample :
    (run_automation envLoginFail ["SO001"] false 3).stats.success
        + (run_automation envLoginFail ["SO001"] false 3).stats.failed
        + (run_automation envLoginFail ["SO001"] false 3).stats.skipped
      = 0 ∧
    (run_automation envLoginFail ["SO001"] false 3).stats.total = 1 := by
  decide

/-- Witness for `c1_stats_sum` at a concrete environment and list. -/
theorem c1_witness :
    (run_automation envOkBase ["SO001"] false 3).stats.success
        + (run_automation envOkBase ["SO001"] false 3).stats.failed
        + (run_automation envOkBase ["SO001"] false 3).stats.skipped
      = (run_automation envOkBase ["SO001"] false 3).stats.total :=
  c1_stats_sum envOkBase ["SO001"] false 3 rfl rfl rfl rfl
    (fun i => by simp [return_to_search, envOkBase])
    (fun so_number => orderAborts_of_noShot envOkBase false 3 so_number rfl)
    (by simp)

/-- Claim C2, amended.  The original claim asserts that cancelling
before the loop yields `success == 0` and `failed == 0` with no order
attempted.  In the code, `process_service_order` returns `False` when
`self.cancelled` is set (main.py line 664), and the loop classifies
every `False` return as failed and appends the identifier to
`failed_orders.txt`, so the run ends with `failed == len(ids)`, not 0
(see `c2_counterexample`).  Amended: with the flag set before the loop
(and the run reaching the loop, no `return_to_search` fault), the run
finishes with `total = len(ids)`, `success = 0`, `failed = len(ids)`,
`skipped = 0`, no pipeline step executed for any order, every
identifier appended to the failure log, and a finalized summary. -/
theorem c2_cancelled_before_loop (env : Env) (ids : List String) (mr : Nat)
    (hload : env.loadOk = true) (hbr : env.browserOk = true)
    (hlog : login env = true) (hnav : navigate_to_job_search env = true)
    (hret : ∀ i, return_to_search env i ≠ Except.error ()) :
    (run_automation env ids true mr).stats.total = ids.length ∧
    (run_automation env ids true mr).stats.success = 0 ∧
    (run_automation env ids true mr).stats.failed = ids.length ∧
    (run_automation env ids true mr).stats.skipped = 0 ∧
    (run_automation env ids true mr).trace = [] ∧
    (run_automation env ids true mr).failedLog = ids ∧
    (run_automation env ids true mr).endTimeSet = true ∧
    (run_automation env ids true mr).summaryCount = 1 := by
  rw [run_automation_of_ok env ids true mr hload hbr hlog hnav]
  have hout : ∀ so_number, outcomeOf env true mr so_number = .failed := by
    intro so_number
    unfold outcomeOf
    rw [process_cancelled]
  have hab : ∀ so_number, orderAborts env true mr so_number = false :=
    fun so_number => orderAborts_cancelled env mr so_number
  refine ⟨?_, ?_, ?_, ?_, ?_, ?_, rfl, rfl⟩
  · rw [show (finalize (runLoop env true mr ids 0 (initLoopSt ids.length)).stats
      (runLoop env true mr ids 0 (initLoopSt ids.length)).failedLog
      (runLoop env true mr ids 0 (initLoopSt ids.length)).trace
      (runLoop env true mr ids 0 (initLoopSt ids.length)).aborted).stats
        = (runLoop env true mr ids 0 (initLoopSt ids.length)).stats from rfl,
      (runLoop_preserve env true mr ids 0 (initLoopSt ids.length)).1]
    rfl
  · simp only [finalize]
    rw [runLoop_success env true mr hret hab ids]
    simp [initLoopSt, initStats, hout, isSuccessB]
  · simp only [finalize]
    rw [runLoop_failed env true mr hret hab ids]
    simp [initLoopSt, initStats, hout, isSuccessB]
  · exact (runLoop_preserve env true mr ids 0 (initLoopSt ids.length)).2
  · simp only [finalize]
    rw [runLoop_trace env true mr hret hab ids, loopTrace_cancelled]
    simp [initLoopSt]
  · simp only [finalize]
    rw [runLoop_log env true mr hret hab ids]
    simp [initLoopSt, hout, isFailedB]

/-- Claim C2, counterexample to the original statement: cancelling
before the loop with one identifier and an otherwise fully working
environment ends with `failed = 1`, not `failed = 0`. -/
theorem c2_counterexample :
    (run_automation envOkBase ["SO001"] true 3).stats.failed = 1 ∧
    (run_automation envOkBase ["SO001"] true 3).stats.success = 0 ∧
    (run_automation envOkBase ["SO001"] true 3).stats.total = 1 ∧
    (run_automation envOkBase ["SO001"] true 3).failedLog = ["SO001"] := by
  decide

/-- Witness for `c2_cancelled_before_loop` at a concrete environment
and list. -/
theorem c2_witness :
    (run_automation envOkBase ["SO001"] true 3).stats.total = 1 ∧
    (run_automation envOkBase ["SO001"] true 3).stats.success = 0 ∧
    (run_automation envOkBase ["SO001"] true 3).stats.failed = 1 ∧
    (run_automation envOkBase ["SO001"] true 3).stats.skipped = 0 ∧
    (run_automation envOkBase ["SO001"] true 3).trace = [] ∧
    (run_automation envOkBase ["SO001"] true 3).failedLog = ["SO001"] ∧
    (run_automation envOkBase ["SO001"] true 3).endTimeSet = true ∧
    (run_automation envOkBase ["SO001"] true 3).summaryCount = 1 :=
  c2_cancelled_before_loop envOkBase ["SO001"] 3 rfl rfl rfl rfl
    (fun i => by simp [return_to_search, envOkBase])

/-- Claim C3, amended.  The original claim asserts that any failing
pipeline step triggers the backoff-and-recurse retry while
`attempt < maxRetries - 1`.  In the code a step returning `False`
makes `process_service_order` return `False` immediately at any
attempt (main.py lines 674, 681, 687) — no retry (see
`c3_counterexample`); only an exception reaches the `except` handler
at line 693.  Amended: a step returning failure yields `Failed`
immediately without retry; when an exception escapes a step and
`attempt < maxRetries - 1`, the handler waits a fixed backoff and
re-invokes with `attempt + 1`, restarting from the search step; when
`attempt >= maxRetries - 1`, the exception also yields `Failed`
permanently. -/
theorem c3_retry_only_on_exception (env : Env) (so_number : String)
    (mr rc : Nat) :
    ((attemptBody env so_number rc).1 = .failed →
      process_service_order env false so_number mr rc
        = (.failed, (attemptBody env so_number rc).2)) ∧
    ((attemptBody env so_number rc).1 = .exnEsc → rc < mr - 1 →
      env.backoffExn so_number rc = false →
      process_service_order env false so_number mr rc
        = ((process_service_order env false so_number mr (rc + 1)).1,
           (attemptBody env so_number rc).2
             ++ Ev.backoff rc
               :: (process_service_order env false so_number mr (rc + 1)).2)
        ∧ ∃ t, (process_service_order env false so_number mr (rc + 1)).2
            = Ev.search (rc + 1) :: t) ∧
    ((attemptBody env so_number rc).1 = .exnEsc → ¬ rc < mr - 1 →
      process_service_order env false so_number mr rc
        = (.failed, (attemptBody env so_number rc).2)) := by
  refine ⟨?_, ?_, ?_⟩
  · intro hf
    conv_lhs => unfold process_service_order
    simp only [processFuel, Bool.false_eq_true, if_false]
    rcases hab : attemptBody env so_number rc with ⟨s, evs⟩
    rw [hab] at hf
    simp only at hf
    subst hf
    simp [hab]
  · intro hx hlt hbo
    refine ⟨?_, process_trace_cons env so_number mr (rc + 1)⟩
    conv_lhs => unfold process_service_order
    simp only [processFuel, Bool.false_eq_true, if_false]
    rcases hab : attemptBody env so_number rc with ⟨s, evs⟩
    rw [hab] at hx
    simp only at hx
    subst hx
    simp only [if_pos hlt, hbo, Bool.false_eq_true, if_false,
      processFuel_adequate env false so_number mr rc hlt]
  · intro hx hge
    conv_lhs => unfold process_service_order
    simp only [processFuel, Bool.false_eq_true, if_false]
    rcases hab : attemptBody env so_number rc with ⟨s, evs⟩
    rw [hab] at hx
    simp only at hx
    subst hx
    simp [if_neg hge]

/-- Claim C3, counterexample to the original statement: with the
search step returning failure (not raising) at attempt 0 and
`maxRetries = 3` (so attempt 0 < maxRetries - 1), the call returns
`Failed` after the single search step — no backoff and no attempt 1,
contrary to the claimed retry. -/
theorem c3_counterexample :
    search_service_order envStepFail "SO001" 0 = false ∧
    (0 : Nat) < 3 - 1 ∧
    process_service_order envStepFail false "SO001" 3 0
      = (.failed, [Ev.search 0]) ∧
    Ev.search 1 ∉ (process_service_order envStepFail false "SO001" 3 0).2 ∧
    Ev.backoff 0 ∉ (process_service_order envStepFail false "SO001" 3 0).2 := by
  decide

/-- Witness for `c3_retry_only_on_exception` at a concrete
environment whose open-details step raises an escaping exception. -/
theorem c3_witness :
    process_service_order envStepExn false "SO001" 3 0
      = ((process_service_order envStepExn false "SO001" 3 1).1,
         (attemptBody envStepExn "SO001" 0).2
           ++ Ev.backoff 0
             :: (process_service_order envStepExn false "SO001" 3 1).2)
      ∧ ∃ t, (process_service_order envStepExn false "SO001" 3 1).2
          = Ev.search 1 :: t :=
  (c3_retry_only_on_exception envStepExn "SO001" 3 0).2.1
    (by decide) (by decide) (by decide)

/-- Claim C4, confirmed.  For every identifier occurring exactly once
in the input list whose processing returns the terminal `Failed`
outcome (in particular after exhausting retries), in a run that
reaches the loop and is not aborted — neither by a `return_to_search`
fault nor by the per-order handler's diagnostic screenshot (main.py
line 750) raising after an escaped order, both of which would end the
loop before the identifier is reached — the identifier is appended to
`failed_orders.txt` exactly once. -/
theorem c4_failed_logged_once (env : Env) (ids : List String) (c : Bool)
    (mr : Nat) (so_number : String)
    (hload : env.loadOk = true) (hbr : env.browserOk = true)
    (hlog : login env = true) (hnav : navigate_to_job_search env = true)
    (hret : ∀ i, return_to_search env i ≠ Except.error ())
    (hab : ∀ s, orderAborts env c mr s = false)
    (hone : ids.count so_number = 1)
    (hfail : outcomeOf env c mr so_number = .failed) :
    (run_automation env ids c mr).failedLog.count so_number = 1 := by
  rw [run_automation_of_ok env ids c mr hload hbr hlog hnav]
  simp only [finalize]
  rw [runLoop_log env c mr hret hab ids]
  simp only [initLoopSt, List.nil_append]
  rw [count_filter_pos _ ids so_number (by simp [hfail, isFailedB])]
  exact hone

/-- Witness for `c4_failed_logged_once`: one identifier whose search
step fails, so processing returns `Failed` and the identifier is
logged exactly once. -/
theorem c4_witness :
    (run_automation envStepFail ["SO001"] false 3).failedLog.count "SO001"
      = 1 :=
  c4_failed_logged_once envStepFail ["SO001"] false 3 "SO001" rfl rfl rfl rfl
    (fun i => by simp [return_to_search, envStepFail, envOkBase])
    (fun s => orderAborts_of_noShot envStepFail false 3 s rfl)
    (by decide) (by decide)

/-- Claim C5, confirmed.  The extraction strategies run in the fixed
order new-tab capture, embedded-image direct fetch, region screenshot,
first success short-circuiting the rest: a successful strategy 1
returns without consulting strategies 2 or 3, and when strategy 1
fails and strategy 2 succeeds (either as a decodable data URI or as a
captured http URL), the call succeeds, the artifact file for the
identifier is among the written files, and strategy 3 is never
invoked. -/
theorem c5_strategy_chain (env : Env) (so_number : String) (rc : Nat)
    (h0 : env.preScrollExn so_number rc = false) :
    (env.strat1Ok so_number rc = true →
      find_and_save_invoice_image env so_number rc
        = { ok := true, files := [so_number ++ ".png"], strat2Tried := false,
            strat3Tried := false, escaped := false }) ∧
    (env.strat1Ok so_number rc = false →
      ∀ isJpeg, env.invoiceImg so_number rc = .dataUri isJpeg true →
        find_and_save_invoice_image env so_number rc
          = { ok := true,
              files := [so_number ++ "."
                ++ (if isJpeg then "jpg" else "png")],
              strat2Tried := true, strat3Tried := false, escaped := false }) ∧
    (env.strat1Ok so_number rc = false →
      env.invoiceImg so_number rc = .httpUrl true →
      find_and_save_invoice_image env so_number rc
        = { ok := true, files := [so_number ++ ".png"], strat2Tried := true,
            strat3Tried := false, escaped := false }) := by
  refine ⟨?_, ?_, ?_⟩
  · intro h1
    unfold find_and_save_invoice_image
    simp [h0, h1]
  · intro h1 isJpeg himg
    unfold find_and_save_invoice_image
    simp [h0, h1, himg]
  · intro h1 himg
    unfold find_and_save_invoice_image
    simp [h0, h1, himg]

/-- Witness for `c5_strategy_chain`: strategy 1 fails, the invoice is
an absolute image URL whose capture succeeds; the artifact file is
written and strategy 3 is not invoked. -/
theorem c5_witness :
    find_and_save_invoice_image envStrat2 "SO001" 0
      = { ok := true, files := ["SO001.png"], strat2Tried := true,
          strat3Tried := false, escaped := false } :=
  (c5_strategy_chain envStrat2 "SO001" 0 (by decide)).2.2
    (by decide) (by decide)

/-- Claim C6, amended.  The original claim asserts that after all 3
login attempts fail a `LoginError` is surfaced to the caller.  In the
code `login` returns `False`, `run_automation` logs the failure and
returns normally (main.py lines 718-720); no exception of any kind
reaches the caller (see `c6_counterexample`).  Amended: when all 3
login attempts fail, `login` returns `False`, the run is fatal — no
order is processed, `total = len(ids)`, `success = 0`, `failed = 0` —
a finalized summary is still produced, and the failure is signalled to
the caller only by the logged error and the zero-processed statistics,
not by a raised `LoginError`. -/
theorem c6_login_exhaustion (env : Env) (ids : List String) (c : Bool)
    (mr : Nat) (hload : env.loadOk = true) (hbr : env.browserOk = true)
    (h0 : env.loginAttempt 0 ≠ .success)
    (h1 : env.loginAttempt 1 ≠ .success)
    (h2 : env.loginAttempt 2 ≠ .success) :
    login env = false ∧
    (run_automation env ids c mr).stats.total = ids.length ∧
    (run_automation env ids c mr).stats.success = 0 ∧
    (run_automation env ids c mr).stats.failed = 0 ∧
    (run_automation env ids c mr).stats.skipped = 0 ∧
    (run_automation env ids c mr).trace = [] ∧
    (run_automation env ids c mr).escaped = none ∧
    (run_automation env ids c mr).endTimeSet = true ∧
    (run_automation env ids c mr).summaryCount = 1 := by
  have hlog : login env = false := by
    unfold login
    cases hg : env.loginGotoExn
    · cases ha0 : env.loginAttempt 0
      · exact absurd ha0 h0
      · cases ha1 : env.loginAttempt 1
        · exact absurd ha1 h1
        · cases ha2 : env.loginAttempt 2
          · exact absurd ha2 h2
          · rfl
          · rfl
        · cases ha2 : env.loginAttempt 2
          · exact absurd ha2 h2
          · rfl
          · rfl
      · cases ha1 : env.loginAttempt 1
        · exact absurd ha1 h1
        · cases ha2 : env.loginAttempt 2
          · exact absurd ha2 h2
          · rfl
          · rfl
        · cases ha2 : env.loginAttempt 2
          · exact absurd ha2 h2
          · rfl
          · rfl
    · rfl
  rw [run_automation_no_login env ids c mr hload hbr hlog]
  exact ⟨hlog, rfl, rfl, rfl, rfl, rfl, rfl, rfl, rfl⟩

/-- Claim C6, counterexample to the original statement: with every
login attempt failing, nothing is surfaced to the caller —
`run_automation` completes normally with no escaping error. -/
theorem c6_counterexample :
    envLoginFail.loginAttempt 0 ≠ .success ∧
    envLoginFail.loginAttempt 1 ≠ .success ∧
    envLoginFail.loginAttempt 2 ≠ .success ∧
    (run_automation envLoginFail ["SO001"] false 3).escaped = none := by
  decide

/-- Witness for `c6_login_exhaustion` at a concrete environment and
list. -/
theorem c6_witness :
    login envLoginFail = false ∧
    (run_automation envLoginFail ["SO001"] false 3).stats.total = 1 ∧
    (run_automation envLoginFail ["SO001"] false 3).stats.success = 0 ∧
    (run_automation envLoginFail ["SO001"] false 3).stats.failed = 0 ∧
    (run_automation envLoginFail ["SO001"] false 3).stats.skipped = 0 ∧
    (run_automation envLoginFail ["SO001"] false 3).trace = [] ∧
    (run_automation envLoginFail ["SO001"] false 3).escaped = none ∧
    (run_automation envLoginFail ["SO001"] false 3).endTimeSet = true ∧
    (run_automation envLoginFail ["SO001"] false 3).summaryCount = 1 :=
  c6_login_exhaustion envLoginFail ["SO001"] false 3 rfl rfl
    (by decide) (by decide) (by decide)

/-- Claim C7, confirmed.  Statistics finalization is unconditional:
for every environment (including setup failure, browser-launch
failure, login failure, navigation failure, a loop aborted by an
escaping exception, and normal completion), the run result has the
start and end times set and exactly one emitted summary. -/
theorem c7_finalize_unconditional (env : Env) (ids : List String) (c : Bool)
    (mr : Nat) :
    (run_automation env ids c mr).startTimeSet = true ∧
    (run_automation env ids c mr).endTimeSet = true ∧
    (run_automation env ids c mr).summaryCount = 1 := by
  unfold run_automation
  split
  · exact ⟨rfl, rfl, rfl⟩
  · split
    · exact ⟨rfl, rfl, rfl⟩
    · split
      · exact ⟨rfl, rfl, rfl⟩
      · split
        · exact ⟨rfl, rfl, rfl⟩
        · exact ⟨rfl, rfl, rfl⟩

/-- Claim C8, confirmed.  The verify step succeeds exactly when some
result row's text contains the identifier as a contiguous substring;
in every other situation (no rows, explicit no-results message, or
neither signal) it reports not-found.  The substring characterisation
also exhibits the documented false positive: the identifier may occur
embedded in a row belonging to a different identifier. -/
theorem c8_verify_substring (rows : List (List Char)) (noResultsMsg : Bool)
    (so_number : List Char) :
    verify_search_results rows noResultsMsg so_number = true
      ↔ ∃ r ∈ rows, ∃ pre post, r = pre ++ so_number ++ post := by
  rw [verify_eq_any, List.any_eq_true]
  constructor
  · rintro ⟨r, hr, hc⟩
    exact ⟨r, hr, (containsSub_iff r so_number).mp hc⟩
  · rintro ⟨r, hr, h⟩
    exact ⟨r, hr, (containsSub_iff r so_number).mpr h⟩

/-- Claim C9, amended.  The original claim asserts that a per-order
error — including one in the return-to-search step after the order —
never aborts the run.  Two channels refute it.  `return_to_search`
sits outside the per-order `try` (main.py line 754): when its last
fallback raises, the exception aborts the loop and the remaining
identifiers are never processed (see `c9_counterexample`).  And even
the per-order `except` handler itself can abort the run: its
diagnostic screenshot (main.py line 750) is an unguarded call, and if
it raises after an escaped order the exception leaves the loop the
same way.  Amended: a per-order error is caught at the loop boundary
and counted as failed; the run continues with the next identifier
provided neither the handler's diagnostic screenshot nor
`return_to_search` propagates an exception — under those two provisos
the loop is never aborted and every identifier in the list is
classified into the success or failed counter. -/
theorem c9_per_order_errors_contained (env : Env) (ids : List String)
    (c : Bool) (mr : Nat)
    (hload : env.loadOk = true) (hbr : env.browserOk = true)
    (hlog : login env = true) (hnav : navigate_to_job_search env = true)
    (hret : ∀ i, return_to_search env i ≠ Except.error ())
    (hab : ∀ so_number, orderAborts env c mr so_number = false) :
    (run_automation env ids c mr).loopAborted = false ∧
    (run_automation env ids c mr).stats.success
      + (run_automation env ids c mr).stats.failed = ids.length := by
  rw [run_automation_of_ok env ids c mr hload hbr hlog hnav]
  simp only [finalize]
  rw [runLoop_aborted env c mr hret hab ids,
    runLoop_success env c mr hret hab ids,
    runLoop_failed env c mr hret hab ids]
  have hpart := length_filter_partition
    (fun so_number => isSuccessB (outcomeOf env c mr so_number)) ids
  refine ⟨rfl, ?_⟩
  simp only [initLoopSt, initStats]
  omega

/-- Claim C9, counterexample to the original statement: order SO001
fails, then every fallback of `return_to_search` raises; the loop is
aborted and SO002 is never processed (one order classified out of
two, no pipeline event for SO002). -/
theorem c9_counterexample :
    (run_automation envRetAbort ["SO001", "SO002"] false 3).loopAborted
        = true ∧
    (run_automation envRetAbort ["SO001", "SO002"] false 3).stats.total
        = 2 ∧
    (run_automation envRetAbort ["SO001", "SO002"] false 3).stats.success
        = 0 ∧
    (run_automation envRetAbort ["SO001", "SO002"] false 3).stats.failed
        = 1 ∧
    (run_automation envRetAbort ["SO001", "SO002"] false 3).trace
        = [("SO001", Ev.search 0)] := by
  decide

/-- Witness for `c9_per_order_errors_contained`: a failing order in an
environment whose `return_to_search` works; the loop is not aborted
and both identifiers are classified. -/
theorem c9_witness :
    (run_automation envStepFail ["SO001", "SO002"] false 3).loopAborted
        = false ∧
    (run_automation envStepFail ["SO001", "SO002"] false 3).stats.success
        + (run_automation envStepFail ["SO001", "SO002"] false 3).stats.failed
      = 2 :=
  c9_per_order_errors_contained envStepFail ["SO001", "SO002"] false 3
    rfl rfl rfl rfl
    (fun i => by simp [return_to_search, envStepFail, envOkBase])
    (fun so_number => orderAborts_of_noShot envStepFail false 3 so_number rfl)

/-- Claim C10, confirmed.  The skipped counter is never incremented by
any operation: it is 0 in the final statistics of every run, and the
per-order loop preserves it from any intermediate state, so it is 0 at
every point of a run started from the initial statistics. -/
theorem c10_skipped_always_zero (env : Env) (ids : List String) (c : Bool)
    (mr : Nat) :
    (run_automation env ids c mr).stats.skipped = 0 ∧
    ∀ (l : List String) (i : Nat) (st : LoopSt),
      (runLoop env c mr l i st).stats.skipped = st.stats.skipped := by
  constructor
  · unfold run_automation
    split
    · rfl
    · split
      · rfl
      · split
        · rfl
        · split
          · rfl
          · exact (runLoop_preserve env c mr ids 0
              { stats := { initStats with total := ids.length },
                failedLog := [], trace := [], aborted := false }).2
  · intro l i st
    exact (runLoop_preserve env c mr l i st).2

end CRMAutomation
